import Mathlib

/-!
Verification of the allocation health-tracking core of this repository.

The development shallowly embeds the Go source files:
  - client/serviceregistration/checks/status.go        (result data model)
  - client/serviceregistration/checks/client.go        (check prober)
  - client/serviceregistration/checks/checkstore       (check result store)
  - the checks hook of the allocation runner           (observers, Update, PreKill)
  - the allocation health Tracker (package allochealth)

Go maps are embedded as functions with an Option codomain, Go channels of
capacity one as an Option slot, and context cancellation as a Boolean flag.
Concurrency follows the cooperative-cancellation semantics the source
implements: every watcher iteration begins by selecting on the shared
cancellation signal, so a watcher takes no further step once the tracker
has been cancelled.
-/

namespace NomadHealth

/-- Pointwise update of a string-keyed map embedded as a function. -/
def upd {β : Type} (f : String → β) (k : String) (v : β) : String → β :=
  fun x => if x == k then v else f x

/-! ## status.go: result data model

The snapshot in client/serviceregistration/checks/status.go enumerates the
result kinds and states. The checker snapshot (client.go) names the
non-success state Failure and the initial state Pending; in the data model
those are the Critical and Missing states respectively. -/

/-- Kind of a check: healthiness gates deployment health, readiness does not. -/
inductive Kind where
  | healthiness
  | readiness
deriving DecidableEq, Repr

/-- Result state of a single check execution. -/
inductive Result where
  | success
  | critical
  | missing
deriving DecidableEq, Repr

/-- Result.String from status.go. -/
def Result.toText : Result → String
  | .success => "success"
  | .critical => "critical"
  | .missing => "missing"

/-- The name the checker snapshot (client.go) gives to the critical state. -/
def Failure : Result := Result.critical

/-- The name the checker snapshot (client.go) gives to the missing state. -/
def Pending : Result := Result.missing

/-- Check identity, checks.ID / checks.CheckID in the source. -/
abbrev CheckID := String

/-- A list of check identities, the keepSet argument of store.Keep.
Named at top level because the method name Store.List shadows the list
type inside the Store namespace. -/
abbrev CheckIDList := List CheckID

/-- QueryResult from status.go. The checker snapshot calls the time stamp
field Timestamp; the data-model snapshot calls it When. -/
structure QueryResult where
  id : CheckID
  kind : Kind
  result : Result
  output : String
  timestamp : Int
deriving DecidableEq, Repr

/-! ## checkstore: the check result store (part_003 snapshot)

The store keeps an in-memory two-level map, allocation id to check id to
the latest result. The durable write-through (state.StateDB, outside the
embedded sources) only mirrors the in-memory map and is not modeled; the
in-memory map is the source of truth for reads, exactly as in the source. -/

/-- The in-memory state of the check result store: alloc id to an optional
check-id map, mirroring ClientResultMap where a missing allocation is a
nil inner map. -/
structure Store where
  current : String → Option (CheckID → Option QueryResult)

/-- A store with no entries, as built by NewStore. -/
def emptyStore : Store := ⟨fun _ => none⟩

/-- store.Set: upsert the latest result for one check of one allocation,
creating the inner map when absent. -/
def Store.Set (s : Store) (allocID : String) (checkID : CheckID)
    (qr : QueryResult) : Store :=
  let m := match s.current allocID with
    | none => fun _ => none
    | some m => m
  ⟨upd s.current allocID (some (upd m checkID (some qr)))⟩

/-- store.List: the latest results for one allocation; none embeds the nil
map returned for an unknown allocation. The defensive copy the source makes
is the identity in a pure embedding. -/
def Store.List (s : Store) (allocID : String) :
    Option (CheckID → Option QueryResult) :=
  s.current allocID

/-- store.Keep: drop every stored entry of the allocation whose check id is
not in the keep list; the loop over the inner map is embedded as a filter. -/
def Store.Keep (s : Store) (allocID : String) (checkIDs : CheckIDList) :
    Store :=
  ⟨upd s.current allocID
    ((s.current allocID).map
      (fun m => fun c => if checkIDs.contains c then m c else none))⟩

/-- store.Purge: remove the whole entry of the allocation. -/
def Store.Purge (s : Store) (allocID : String) : Store :=
  ⟨upd s.current allocID none⟩

/-- Lookup of one check result through store.List. -/
def listLookup (s : Store) (allocID : String) (checkID : CheckID) :
    Option QueryResult :=
  match s.List allocID with
  | none => none
  | some m => m checkID

/-- The store operations an observer or hook may perform after a write. -/
inductive StoreOp where
  | set (allocID : String) (checkID : CheckID) (qr : QueryResult)
  | keep (allocID : String) (checkIDs : List CheckID)
  | purge (allocID : String)

/-- Apply one store operation. -/
def applyOp (s : Store) : StoreOp → Store
  | .set a c q => s.Set a c q
  | .keep a ids => s.Keep a ids
  | .purge a => s.Purge a

/-- Apply a sequence of store operations in order. -/
def applyOps (s : Store) : List StoreOp → Store
  | [] => s
  | op :: rest => applyOps (applyOp s op) rest

/-- An operation neither supersedes nor removes the result stored for
check checkID of allocation allocID: it is not a Set of that same check,
not a Purge of that allocation, and any Keep on that allocation retains
the check. -/
def retains (allocID : String) (checkID : CheckID) : StoreOp → Prop
  | .set a c _ => ¬(a = allocID ∧ c = checkID)
  | .keep a ids => a = allocID → ids.contains checkID = true
  | .purge a => a ≠ allocID

/-! ## client.go: the check prober

The prober executes one check over the network. Network effects are
abstracted by an oracle recording what each call would return, so the
prober itself is a total function: it always produces a QueryResult and
never an error value, as its Go signature promises. -/

/-- ServiceCheck, the slice of structs.ServiceCheck the prober and hook
consume: protocol type, http path and method, the on-update policy and the
poll interval. The struct lives in the structs package outside the
embedded sources; the fields are those read by GetQuery, GetKind and the
observer loop. -/
structure ServiceCheck where
  name : String
  checkType : String
  path : String
  method : String
  onUpdate : String
  interval : Nat
deriving DecidableEq, Repr

/-- Query from client.go: the minimal information needed to execute a
check. -/
structure Query where
  kind : Kind
  queryType : String
  address : String
  path : String
  method : String
deriving DecidableEq, Repr

/-- GetKind from client.go: readiness exactly when the on-update policy is
ignore. (The nil-pointer guard of the Go receiver is dropped: the
embedding passes the check by value.) -/
def GetKind (c : ServiceCheck) : Kind :=
  if c.onUpdate == "ignore" then Kind.readiness else Kind.healthiness

/-- The http method constant the snapshot hardcodes into every query. -/
def MethodGet : String := "GET"

/-- GetQuery from client.go. The snapshot hardcodes the address to the
literal 127.0.0.1:8080 behind a todo marker and the method to GET,
ignoring the configured method of the check. -/
def GetQuery (c : ServiceCheck) : Query :=
  { kind := GetKind c
    queryType := c.checkType
    address := "127.0.0.1:8080"
    path := c.path
    method := MethodGet }

/-- One invocation of the network, as seen by the prober: the outcome of
net.Dial, http.NewRequest, httpClient.Do (an error or a status code) and
the body read (an error or the body), plus the current clock. -/
structure NetOracle where
  now : Int
  dialErr : Option String
  newRequestErr : Option String
  doOutcome : Except String Nat
  bodyRead : Except String String

/-- checker.checkTCP: success exactly when the dial succeeds; a dial error
becomes a Failure result whose output is the error text. -/
def checkTCP (o : NetOracle) (q : Query) : QueryResult :=
  let status : QueryResult :=
    { id := "", kind := q.kind, timestamp := o.now
      result := Result.success, output := "" }
  match o.dialErr with
  | some e => { status with output := e, result := Failure }
  | none => status

/-- checker.checkHTTP: request construction and transport errors become a
Failure result with a nomad-prefixed diagnostic; a body-read error keeps
the diagnostic as output but lets the status code dictate the result;
status below 400 is Success, at least 400 is Failure. -/
def checkHTTP (o : NetOracle) (q : Query) : QueryResult :=
  let qr : QueryResult :=
    { id := "", kind := q.kind, timestamp := o.now
      result := Pending, output := "" }
  match o.newRequestErr with
  | some e => { qr with output := "nomad: " ++ e, result := Failure }
  | none =>
    match o.doOutcome with
    | .error e => { qr with output := "nomad: " ++ e, result := Failure }
    | .ok statusCode =>
      let qr :=
        match o.bodyRead with
        | .error e => { qr with output := "nomad: " ++ e }
        | .ok b => { qr with output := b }
      if statusCode < 400 then { qr with result := Result.success }
      else { qr with result := Failure }

/-- checker.Check: dispatch on the query type; anything that is not http
is probed over tcp. Total by construction: no error value, no panic. -/
def Check (o : NetOracle) (q : Query) : QueryResult :=
  if q.queryType == "http" then checkHTTP o q else checkTCP o q

/-! ## The checks hook (part_002 snapshot)

The hook owns the observers of an allocation and the lifecycle entry
points. Only the effect of Update and PreKill on the check result store is
claimed; in the snapshot the body of Update is a logging stub whose store
reconciliation is an explicit todo, and PreKill cancels the observers and
purges the allocation from the store. -/

/-- The checks hook data the embedded entry points read: the allocation id
it serves. The observers map and its shared context only matter through
the stop flag returned by PreKill. -/
structure ChecksHook where
  allocID : String

/-- checksHook.Update from part_002: the body only logs; the reconcile of
the check store against the new allocation spec is a todo in the source,
so the store is returned unchanged and no observer is stopped. -/
def ChecksHook.Update (_h : ChecksHook) (s : Store) : Store :=
  s

/-- checksHook.PreKill from part_002: cancel the shared observer context
and purge the allocation from the store. The Boolean records that the stop
function was called. -/
def ChecksHook.PreKill (h : ChecksHook) (s : Store) : Store × Bool :=
  (s.Purge h.allocID, true)

/-! ## Allocation data model (structs package, read-only input)

The allocation object the Tracker consumes. The structs package is outside
the embedded sources; the constructors below mirror the constants and
fields the Tracker reads: desired status, client status and the per-task
runtime states. -/

/-- Desired status of an allocation; run stands for every value other
than the stop and evict constants the watcher switches on. -/
inductive DesiredStatus where
  | run
  | stop
  | evict
deriving DecidableEq, Repr

/-- Client status of an allocation; other stands for every value except
the failed constant the watcher compares against. -/
inductive ClientStatus where
  | failed
  | other
deriving DecidableEq, Repr

/-- Runtime state constant of one task: pending, running or dead. -/
inductive TState where
  | pending
  | running
  | dead
deriving DecidableEq, Repr

/-- structs.TaskState as read by the watcher: the state constant, the
failed flag and the start and finish time stamps. Times are naturals with
zero embedding the zero time.Time, so IsZero is an equality with zero and
After is the strict order. -/
structure TaskState where
  state : TState
  failed : Bool
  startedAt : Nat
  finishedAt : Nat
deriving DecidableEq, Repr

/-- Modelled from the spec: structs.TaskState.Successful is declared
outside the embedded sources; per the specification a poststart task is
excluded from gating once it has already completed successfully, that is,
once it is dead and not failed. -/
def TaskState.Successful (ts : TaskState) : Bool :=
  ts.state == TState.dead && !ts.failed

/-- The lifecycle hook constants of the structs package, used as values of
the lifecycleTasks map; only their distinctness matters. -/
def TaskLifecycleHookPrestart : String := "prestart"

def TaskLifecycleHookPoststart : String := "poststart"

def TaskLifecycleHookPoststop : String := "poststop"

/-- An allocation snapshot as delivered by the alloc listener: the fields
the task-events watcher reads. The Go map of task states is embedded as an
association list fixing one iteration order. -/
structure Alloc where
  desiredStatus : DesiredStatus
  clientStatus : ClientStatus
  taskStates : List (String × TaskState)

/-! ## Consul registration data (serviceregistration package)

The registration tree returned by AllocRegistrations. The package is
outside the embedded sources; the shapes mirror exactly the fields the
Consul watcher traverses: tasks, their services, the checks of a service
and the per-check on-update policy map. -/

/-- The health status constants of the Consul api package. -/
def HealthPassing : String := "passing"

def HealthWarning : String := "warning"

def HealthCritical : String := "critical"

/-- The on-update policy constants of the structs package. -/
def OnUpdateIgnoreWarn : String := "ignore_warnings"

def OnUpdateIgnore : String := "ignore"

/-- One Consul check registration: its id and reported status. -/
structure ConsulCheck where
  checkID : String
  status : String

/-- One service registration: its checks and the on-update policy of each
check id (the Go map lookup yields the empty string when absent). -/
structure ServiceReg where
  checks : List ConsulCheck
  checkOnUpdate : String → String

/-- The service registrations of one task. -/
structure TaskReg where
  services : List ServiceReg

/-- AllocRegistration: the registrations of every task, keyed by task
name, embedded as an association list fixing one iteration order. -/
structure AllocReg where
  tasks : List (String × TaskReg)

/-! ## The Tracker (part_001 snapshot)

The Tracker struct is split into the immutable configuration captured at
NewTracker and the fields mutated under the lock. The healthy channel of
capacity one is the healthySlot option, the closed allocStopped channel is
a flag, and the cancelled context is a flag. -/

/-- The immutable configuration of a Tracker: the useChecks switch, the
Consul and Nomad check counts computed by countChecks, the lifecycleTasks
map (task name to hook, empty string when absent, holding only
non-sidecar lifecycle tasks) and the key set of the taskHealth map. -/
structure Tracker where
  useChecks : Bool
  consulCheckCount : Nat
  nomadCheckCount : Nat
  minHealthyTime : Nat
  lifecycleTasks : String → String
  tracked : String → Bool

/-- The fields of the Tracker mutated under its lock, plus the channels
and the cancellation flag. -/
structure TrackerState where
  tasksHealthy : Bool
  allocFailed : Bool
  checksHealthy : Bool
  taskStates : String → Option TaskState
  taskRegs : String → Option TaskReg
  healthySlot : Option Bool
  allocStopped : Bool
  cancelled : Bool

/-- The state of a freshly constructed Tracker: flags clear, channels
empty, context live. -/
def initialState : TrackerState :=
  { tasksHealthy := false
    allocFailed := false
    checksHealthy := false
    taskStates := fun _ => none
    taskRegs := fun _ => none
    healthySlot := none
    allocStopped := false
    cancelled := false }

/-- requireConsul as computed inside setTaskHealth: Consul checks are
required when useChecks is on and the group has at least one Consul
check. -/
def Tracker.requireConsul (t : Tracker) : Bool :=
  t.useChecks && decide (0 < t.consulCheckCount)

/-- The non-blocking send on the healthy channel: the select with a
default branch writes only when the single slot is free. -/
def sendHealthy (s : TrackerState) (v : Bool) : TrackerState :=
  match s.healthySlot with
  | none => { s with healthySlot := some v }
  | some _ => s

/-- cancelFn: cancel the shared context of every watcher. -/
def cancelT (s : TrackerState) : TrackerState :=
  { s with cancelled := true }

/-- Tracker.setTaskHealth: record the task health flag; when non-terminal
and unhealthy also clear the checks flag and wait for fresh check results;
when healthy but Consul checks are required and not yet healthy, wait;
otherwise publish the verdict on the healthy channel (best effort) and
shut the tracker down. -/
def Tracker.setTaskHealth (t : Tracker) (s : TrackerState)
    (healthy terminal : Bool) : TrackerState :=
  let s := { s with tasksHealthy := healthy }
  if !terminal && !healthy then
    { s with checksHealthy := false }
  else
    if !terminal && healthy && t.requireConsul && !s.checksHealthy then
      s
    else
      cancelT (sendHealthy s healthy)

/-- Tracker.setCheckHealth: the checks flag is the signal conjoined with
the task flag (checks may be missing from unhealthy tasks); publish and
shut down, returning true, only when both are healthy. -/
def Tracker.setCheckHealth (_t : Tracker) (s : TrackerState)
    (healthy : Bool) : TrackerState × Bool :=
  let s := { s with checksHealthy := healthy && s.tasksHealthy }
  if !s.checksHealthy then
    (s, false)
  else
    (cancelT (sendHealthy s healthy), true)

/-- Tracker.markAllocStopped: close the allocStopped channel and cancel
the tracker; no verdict is published. -/
def Tracker.markAllocStopped (_t : Tracker) (s : TrackerState) :
    TrackerState :=
  cancelT { s with allocStopped := true }

/-! ### The task-events watcher -/

/-- The local state of one watchTaskEvents loop: the time stamp at which
all tasks were last observed started, and whether the one-shot healthy
timer is armed. -/
structure TaskWatcherState where
  allStartedTime : Nat
  timerArmed : Bool
deriving DecidableEq, Repr

/-- The local watcher state at loop entry: zero time, timer drained. -/
def initialTaskWatcher : TaskWatcherState :=
  { allStartedTime := 0, timerArmed := false }

/-- Outcome of one iteration of a watcher loop. -/
inductive IterOutcome where
  | stopped
  | terminal
  | looping
deriving DecidableEq, Repr

/-- The store-the-task-states loop of watchTaskEvents: each delivered
state is recorded into the taskHealth entry of a tracked task. -/
def Tracker.storeTaskStates (t : Tracker) (s : TrackerState) :
    List (String × TaskState) → TrackerState
  | [] => s
  | (name, st) :: rest =>
    let s2 :=
      if t.tracked name then { s with taskStates := upd s.taskStates name (some st) }
      else s
    t.storeTaskStates s2 rest

/-- Result of the per-task detection loop of watchTaskEvents: either a
task has failed or finished impermissibly, or the latest start time of the
gating tasks (zero when some gating task is still pending). -/
inductive ScanResult where
  | failedTask
  | latestStart (n : Nat)
deriving DecidableEq, Repr

/-- The detection loop of watchTaskEvents, in delivery order: poststop
tasks are skipped, successfully completed poststart tasks are skipped, a
failed task or a finished non-prestart task ends the watch, a pending
task zeroes the latest start time and leaves the loop, and otherwise a
later start time advances the accumulator. -/
def scanTaskStates (lifecycle : String → String) :
    List (String × TaskState) → Nat → ScanResult
  | [], latest => .latestStart latest
  | (name, st) :: rest, latest =>
    if lifecycle name == TaskLifecycleHookPoststop then
      scanTaskStates lifecycle rest latest
    else if lifecycle name == TaskLifecycleHookPoststart && st.Successful then
      scanTaskStates lifecycle rest latest
    else if st.failed || (!(st.finishedAt == 0) && !(lifecycle name == TaskLifecycleHookPrestart)) then
      .failedTask
    else if st.state == TState.pending then
      .latestStart 0
    else if latest < st.startedAt then
      scanTaskStates lifecycle rest st.startedAt
    else
      scanTaskStates lifecycle rest latest

/-- One iteration of the watchTaskEvents loop on the current allocation
snapshot: stop/evict marks the allocation stopped; otherwise store the
task states, run the detection loop, finalize on a failed task or a
failed allocation client status, and otherwise re-arm or drain the
healthy timer when the latest start time moved. The select at the bottom
of the Go loop is the separate timer-fire step. -/
def Tracker.watchTaskEventsStep (t : Tracker) (alloc : Alloc)
    (s : TrackerState) (w : TaskWatcherState) :
    TrackerState × TaskWatcherState × IterOutcome :=
  match alloc.desiredStatus with
  | .stop => (t.markAllocStopped s, w, .stopped)
  | .evict => (t.markAllocStopped s, w, .stopped)
  | .run =>
    let s := t.storeTaskStates s alloc.taskStates
    match scanTaskStates t.lifecycleTasks alloc.taskStates 0 with
    | .failedTask => (t.setTaskHealth s false true, w, .terminal)
    | .latestStart latest =>
      if alloc.clientStatus = ClientStatus.failed then
        (t.setTaskHealth { s with allocFailed := true } false true, w, .terminal)
      else if latest = w.allStartedTime then
        (s, w, .looping)
      else
        let s := t.setTaskHealth s false false
        if latest = 0 then
          (s, { w with timerArmed := false }, .looping)
        else
          (s, { allStartedTime := latest, timerArmed := true }, .looping)

/-- The healthy-timer branch of the select in watchTaskEvents: when the
one-shot timer fires, mark the tasks healthy (non-terminal). -/
def Tracker.taskTimerFire (t : Tracker) (s : TrackerState)
    (w : TaskWatcherState) : TrackerState × TaskWatcherState :=
  (t.setTaskHealth s true false, { w with timerArmed := false })

/-! ### The Consul checks watcher -/

/-- The local state of one watchConsulEvents loop: whether the healthy
waiter is primed, whether the last registration fetch errored, and the
last successfully fetched registration tree. -/
structure ConsulWatcherState where
  primed : Bool
  consulChecksErr : Bool
  allocReg : Option AllocReg

/-- The local Consul watcher state at loop entry. -/
def initialConsulWatcher : ConsulWatcherState :=
  { primed := false, consulChecksErr := false, allocReg := none }

/-- The event that wakes one iteration of watchConsulEvents: the poll
ticker with the fetch outcome (none embeds a fetch error), or the healthy
waiter firing. -/
inductive ConsulEvent where
  | tick (fetched : Option AllocReg)
  | waiterFire

/-- The per-check switch of the CHECKS loop: passing always counts;
warning counts when the policy ignores warnings or ignores entirely;
critical counts only when the policy ignores entirely; every other status
falls through to the failure exit. -/
def checkPasses (onupdate : String) (status : String) : Bool :=
  if status == HealthPassing then true
  else if status == HealthWarning then
    onupdate == OnUpdateIgnoreWarn || onupdate == OnUpdateIgnore
  else if status == HealthCritical then
    onupdate == OnUpdateIgnore
  else false

/-- The checks of one service registration all pass; List.all stops at
the first failing check, embedding the break out of the CHECKS loop. -/
def sregPassed (sreg : ServiceReg) : Bool :=
  sreg.checks.all fun c => checkPasses (sreg.checkOnUpdate c.checkID) c.status

/-- The checks of every service of one task registration pass. -/
def tregPassed (treg : TaskReg) : Bool :=
  treg.services.all sregPassed

/-- The whole-registration evaluation of the CHECKS loop. -/
def allocRegPassed (reg : AllocReg) : Bool :=
  reg.tasks.all fun p => tregPassed p.2

/-- The store-the-task-registrations loop of watchConsulEvents. -/
def Tracker.storeTaskRegs (t : Tracker) (s : TrackerState) :
    List (String × TaskReg) → TrackerState
  | [] => s
  | (name, reg) :: rest =>
    let s2 :=
      if t.tracked name then { s with taskRegs := upd s.taskRegs name (some reg) }
      else s
    t.storeTaskRegs s2 rest

/-- The evaluation part of a watchConsulEvents iteration, run after the
select: with no registration yet, loop; otherwise store the
registrations, evaluate every check, record a failure via setCheckHealth
false and drain the waiter, or prime the waiter when all checks pass. -/
def Tracker.consulEvaluate (t : Tracker) (s : TrackerState)
    (w : ConsulWatcherState) : TrackerState × ConsulWatcherState × IterOutcome :=
  match w.allocReg with
  | none => (s, w, .looping)
  | some reg =>
    let s := t.storeTaskRegs s reg.tasks
    let passed := allocRegPassed reg
    let s := if passed then s else (t.setCheckHealth s false).1
    if !passed then
      (s, if w.primed then { w with primed := false } else w, .looping)
    else if !w.primed then
      (s, { w with primed := true }, .looping)
    else
      (s, w, .looping)

/-- One iteration of the watchConsulEvents loop: a fetch error is
remembered (and logged once) and skips evaluation; a successful fetch
refreshes the registration tree and evaluates; the waiter firing sets the
check health and exits the watcher when the verdict propagated, else
clears the primed flag and re-evaluates the stored registrations. -/
def Tracker.watchConsulEventsStep (t : Tracker) (s : TrackerState)
    (w : ConsulWatcherState) (ev : ConsulEvent) :
    TrackerState × ConsulWatcherState × IterOutcome :=
  match ev with
  | .tick none =>
    (s, { w with consulChecksErr := true }, .looping)
  | .tick (some reg) =>
    t.consulEvaluate s { w with consulChecksErr := false, allocReg := some reg }
  | .waiterFire =>
    let r := t.setCheckHealth s true
    if r.2 then
      (r.1, w, .terminal)
    else
      t.consulEvaluate r.1 { w with primed := false }

/-! ### The whole tracker as a transition system

watchNomadEvents in this snapshot is inert: its ticker branch is an empty
todo and nothing ever arms its waiter, so the only transition it could
take (the waiter firing) is unreachable and it contributes no step. The
steps below are the iterations of the two live watchers; each is guarded
by the shared cancellation flag, embedding the cooperative cancellation
the source implements through the select on ctx.Done. -/

/-- A full system state: the shared tracker fields plus the local state
of the two live watchers. -/
structure SysState where
  ts : TrackerState
  tw : TaskWatcherState
  cw : ConsulWatcherState

/-- One step of the tracker system: an allocation update processed by the
task-events watcher, its healthy timer firing, or one Consul watcher
iteration (only when useChecks started that watcher; its waiter fires
only when primed). -/
inductive Step (t : Tracker) : SysState → SysState → Prop where
  | allocUpdate (s : SysState) (alloc : Alloc)
      (hc : s.ts.cancelled = false) :
      Step t s
        { ts := (t.watchTaskEventsStep alloc s.ts s.tw).1
          tw := (t.watchTaskEventsStep alloc s.ts s.tw).2.1
          cw := s.cw }
  | healthyTimerFire (s : SysState)
      (hc : s.ts.cancelled = false) (ha : s.tw.timerArmed = true) :
      Step t s
        { ts := (t.taskTimerFire s.ts s.tw).1
          tw := (t.taskTimerFire s.ts s.tw).2
          cw := s.cw }
  | consulIter (s : SysState) (ev : ConsulEvent)
      (hc : s.ts.cancelled = false) (hu : t.useChecks = true)
      (hw : ev = ConsulEvent.waiterFire → s.cw.primed = true) :
      Step t s
        { ts := (t.watchConsulEventsStep s.ts s.cw ev).1
          tw := s.tw
          cw := (t.watchConsulEventsStep s.ts s.cw ev).2.1 }

/-- Reachability along tracker steps. -/
def Reach (t : Tracker) : SysState → SysState → Prop :=
  Relation.ReflTransGen (Step t)

/-- The delivery invariant of the tracker: a published verdict always
comes with a cancelled context, and a published Healthy verdict certifies
healthy tasks and, when Consul checks are required, healthy checks. -/
def TrackerInv (t : Tracker) (s : TrackerState) : Prop :=
  (s.healthySlot ≠ none → s.cancelled = true)
  ∧ (s.healthySlot = some true →
      s.tasksHealthy = true ∧ (t.requireConsul = true → s.checksHealthy = true))

/-! ## Concrete instances used by witnesses and counterexamples -/

/-- A stored result for check k1. -/
def qrA : QueryResult :=
  { id := "k1", kind := Kind.healthiness, result := Result.success
    output := "ok", timestamp := 3 }

/-- A stored result for check k2. -/
def qrB : QueryResult :=
  { id := "k2", kind := Kind.healthiness, result := Result.critical
    output := "bad", timestamp := 4 }

/-- A store holding two checks of allocation a1 and one of allocation b1. -/
def sW : Store :=
  ((emptyStore.Set "a1" "k1" qrA).Set "a1" "k2" qrB).Set "b1" "k1" qrA

/-- The pending stub stored for check c1 of allocation alloc1. -/
def qr5 : QueryResult :=
  { id := "c1", kind := Kind.healthiness, result := Result.success
    output := "ok", timestamp := 1 }

/-- A store holding one result for allocation alloc1. -/
def store5 : Store := emptyStore.Set "alloc1" "c1" qr5

/-- The checks hook of allocation alloc1. -/
def hook5 : ChecksHook := { allocID := "alloc1" }

/-- The check-id set implied by an updated allocation spec that dropped
every check. -/
def newSpecCheckIDs : CheckIDList := []

/-- An http query as GetQuery builds it. -/
def qHttp : Query :=
  { kind := Kind.healthiness, queryType := "http"
    address := "127.0.0.1:8080", path := "/h", method := "GET" }

/-- A tcp query. -/
def qTcp : Query :=
  { kind := Kind.healthiness, queryType := "tcp"
    address := "127.0.0.1:9090", path := "", method := "" }

/-- An oracle where the request and transport succeed with status 200 but
reading the response body fails. -/
def oBodyErr : NetOracle :=
  { now := 0, dialErr := none, newRequestErr := none
    doOutcome := .ok 200, bodyRead := .error "boom" }

/-- An oracle where the tcp dial fails. -/
def oDialErr : NetOracle :=
  { now := 0, dialErr := some "connection refused", newRequestErr := none
    doOutcome := .ok 200, bodyRead := .ok "" }

/-- An oracle answering status 399 with a readable empty body. -/
def o399 : NetOracle :=
  { now := 0, dialErr := none, newRequestErr := none
    doOutcome := .ok 399, bodyRead := .ok "" }

/-- An oracle answering status 400 with a readable empty body. -/
def o400 : NetOracle :=
  { now := 0, dialErr := none, newRequestErr := none
    doOutcome := .ok 400, bodyRead := .ok "" }

/-- A service check configured with the POST method. -/
def check9 : ServiceCheck :=
  { name := "c", checkType := "http", path := "/health", method := "POST"
    onUpdate := "", interval := 10 }

/-- A tracker configuration with check watching enabled and one Consul
check in the group. -/
def trackerC : Tracker :=
  { useChecks := true, consulCheckCount := 1, nomadCheckCount := 0
    minHealthyTime := 1, lifecycleTasks := fun _ => ""
    tracked := fun _ => true }

/-- A registration tree with a single critical check under the enforce
policy. -/
def regC : AllocReg :=
  { tasks :=
      [("web",
        { services :=
            [{ checks := [{ checkID := "c1", status := "critical" }]
               checkOnUpdate := fun _ => "" }] })] }

/-- A registration tree with a single passing check. -/
def regP : AllocReg :=
  { tasks :=
      [("web",
        { services :=
            [{ checks := [{ checkID := "c1", status := "passing" }]
               checkOnUpdate := fun _ => "" }] })] }

/-- An on-update policy map with no entries, yielding the enforce default. -/
def emptyPolicy : String → String := fun _ => ""

/-- A critical check registration. -/
def criticalCheck : ConsulCheck := { checkID := "x", status := "critical" }

/-- A passing check registration. -/
def passingCheck : ConsulCheck := { checkID := "y", status := "passing" }

/-- An allocation snapshot with one running task and a run desired
status. -/
def allocRun : Alloc :=
  { desiredStatus := DesiredStatus.run
    clientStatus := ClientStatus.other
    taskStates :=
      [("web", { state := TState.running, failed := false
                 startedAt := 5, finishedAt := 0 })] }

/-- An allocation snapshot whose desired status flipped to stop. -/
def allocStop : Alloc :=
  { desiredStatus := DesiredStatus.stop
    clientStatus := ClientStatus.other
    taskStates := [] }

/-- The whole-system state of a freshly started tracker. -/
def initialSys : SysState :=
  { ts := initialState, tw := initialTaskWatcher, cw := initialConsulWatcher }

/-! # Theorems -/

theorem upd_same {β : Type} (f : String → β) (k : String) (v : β) :
    upd f k v k = v := by
  simp [upd]

theorem upd_other {β : Type} (f : String → β) (k : String) (v : β) (x : String)
    (h : x ≠ k) : upd f k v x = f x := by
  simp [upd, h]

/-! ## The check result store -/

/-- Claim C6: Keep leaves, for the given allocation, exactly the stored
entries whose check id is in the keep set, and leaves every other
allocation untouched. -/
theorem store_keep_exact (s : Store) (allocID : String)
    (checkIDs : CheckIDList) :
    (∀ c, listLookup (s.Keep allocID checkIDs) allocID c =
        if checkIDs.contains c then listLookup s allocID c else none)
    ∧ ∀ a, a ≠ allocID →
        (s.Keep allocID checkIDs).current a = s.current a := by
  constructor
  · intro c
    simp only [listLookup, Store.List, Store.Keep, upd_same]
    cases hs : s.current allocID with
    | none => cases checkIDs.contains c <;> simp
    | some m => by_cases hc : checkIDs.contains c = true <;> simp [hc]
  · intro a ha
    simp only [Store.Keep]
    exact upd_other _ _ _ _ ha

/-- Witness for C6 at a concrete store: the kept check survives, the
dropped check is gone, the other allocation is untouched. -/
theorem store_keep_exact_witness :
    listLookup (sW.Keep "a1" ["k1"]) "a1" "k2" = none
    ∧ (sW.Keep "a1" ["k1"]).current "b1" = sW.current "b1" := by
  have h := store_keep_exact sW "a1" ["k1"]
  refine ⟨?_, h.2 "b1" (by decide)⟩
  have h1 := h.1 "k2"
  rw [show (["k1"] : CheckIDList).contains "k2" = false by rfl] at h1
  simpa using h1

/-- Set stores the result where List finds it. -/
theorem listLookup_set_self (s : Store) (a : String) (c : CheckID)
    (qr : QueryResult) : listLookup (s.Set a c qr) a c = some qr := by
  simp only [listLookup, Store.List, Store.Set, upd_same]

/-- A retaining operation leaves the lookup of the given check unchanged. -/
theorem retains_listLookup (s : Store) (a : String) (c : CheckID)
    (op : StoreOp) (h : retains a c op) :
    listLookup (applyOp s op) a c = listLookup s a c := by
  cases op with
  | set a2 c2 q =>
    by_cases ha : a2 = a
    · subst ha
      have hc : ¬(c2 = c) := fun hcc => h ⟨rfl, hcc⟩
      have hbeq : (c == c2) = false := by
        simp only [beq_eq_false_iff_ne, ne_eq]
        exact fun hx => hc hx.symm
      simp only [applyOp, Store.Set, listLookup, Store.List, upd_same]
      cases hs : s.current a2 with
      | none => simp [hs, upd, hbeq]
      | some m => simp [hs, upd, hbeq]
    · simp only [applyOp, Store.Set, listLookup, Store.List]
      rw [upd_other _ _ _ _ fun hx => ha hx.symm]
  | keep a2 ids =>
    by_cases ha : a2 = a
    · subst ha
      have hc : ids.contains c = true := h rfl
      have hmem : c ∈ ids := by simpa using hc
      simp only [applyOp, Store.Keep, listLookup, Store.List, upd_same]
      cases hs : s.current a2 with
      | none => simp [hs]
      | some m => simp [hs, hmem]
    · simp only [applyOp, Store.Keep, listLookup, Store.List]
      rw [upd_other _ _ _ _ fun hx => ha hx.symm]
  | purge a2 =>
    simp only [applyOp, Store.Purge, listLookup, Store.List]
    rw [upd_other _ _ _ _ (Ne.symm h)]

/-- A sequence of retaining operations leaves the lookup unchanged. -/
theorem retains_applyOps (a : String) (c : CheckID) (ops : List StoreOp) :
    ∀ s : Store, (∀ op ∈ ops, retains a c op) →
      listLookup (applyOps s ops) a c = listLookup s a c := by
  induction ops with
  | nil => intro s _; rfl
  | cons op rest ih =>
    intro s hops
    have h1 := retains_listLookup s a c op (hops op (by simp))
    have h2 := ih (applyOp s op) fun o ho => hops o (by simp [ho])
    simpa [applyOps, h1] using h2

/-- Claim C7: a result written by Set is returned unchanged by List, and
continues to be until a Set of the same check of the same allocation, a
Purge of the allocation, or a Keep dropping the check supersedes it. -/
theorem store_set_list_roundtrip (s : Store) (a : String) (c : CheckID)
    (qr : QueryResult) :
    listLookup (s.Set a c qr) a c = some qr
    ∧ ∀ ops : List StoreOp, (∀ op ∈ ops, retains a c op) →
        listLookup (applyOps (s.Set a c qr) ops) a c = some qr := by
  refine ⟨listLookup_set_self s a c qr, ?_⟩
  intro ops hops
  rw [retains_applyOps a c ops (s.Set a c qr) hops]
  exact listLookup_set_self s a c qr

/-- Witness for C7: a concrete write survives a retaining Set, Keep and
Purge on other keys. -/
theorem store_set_list_roundtrip_witness :
    listLookup
      (applyOps (sW.Set "a1" "k3" qrA)
        [StoreOp.set "a1" "k1" qrB, StoreOp.keep "a1" ["k3"],
         StoreOp.purge "b1"])
      "a1" "k3" = some qrA := by
  have h := store_set_list_roundtrip sW "a1" "k3" qrA
  refine h.2 _ ?_
  intro op hop
  simp only [List.mem_cons, List.not_mem_nil, or_false] at hop
  rcases hop with rfl | rfl | rfl
  · show ¬("a1" = "a1" ∧ "k1" = "k3")
    decide
  · show "a1" = "a1" → (["k3"] : CheckIDList).contains "k3" = true
    intro _
    rfl
  · show "b1" ≠ "a1"
    decide

/-- Claim C5 (evaluating the code at the failing input): the Update entry
point of the checks hook leaves the store unchanged, so after an update
whose new spec implies no checks the stale result of check c1 is still
listed; PreKill does purge it. -/
theorem update_leaves_stale_result :
    hook5.Update store5 = store5
    ∧ listLookup (hook5.Update store5) "alloc1" "c1" = some qr5
    ∧ newSpecCheckIDs.contains "c1" = false
    ∧ listLookup (hook5.PreKill store5).1 "alloc1" "c1" = none := by
  refine ⟨rfl, ?_, rfl, ?_⟩
  · exact listLookup_set_self emptyStore "alloc1" "c1" qr5
  · simp [ChecksHook.PreKill, Store.Purge, listLookup, Store.List, hook5,
      upd_same]

/-! ## The check prober -/

/-- Counterexample to claim C8 as stated: with a successful transport
answering status 200 and a failing body read, the prober returns a
Success result, not a critical one, even though the output carries the
error text; the status code alone dictates the result. -/
theorem http_body_read_error_not_critical :
    (Check oBodyErr qHttp).result = Result.success
    ∧ (Check oBodyErr qHttp).output = "nomad: boom" :=
  ⟨rfl, rfl⟩

/-- Claim C8 as amended: the prober is a total function into QueryResult
(never an error value); a tcp dial error and an http transport error are
folded into a critical result carrying the error text (http with the
nomad prefix); an http body-read error keeps the prefixed error text as
output while the status code alone dictates success below 400 and
critical at 400 and above. -/
theorem checker_folds_network_errors (o : NetOracle) (q : Query) :
    (∀ e, (q.queryType == "http") = false → o.dialErr = some e →
        (Check o q).result = Result.critical ∧ (Check o q).output = e)
    ∧ (∀ e, (q.queryType == "http") = true → o.newRequestErr = none →
        o.doOutcome = .error e →
        (Check o q).result = Result.critical
        ∧ (Check o q).output = "nomad: " ++ e)
    ∧ (∀ e code, (q.queryType == "http") = true → o.newRequestErr = none →
        o.doOutcome = .ok code → o.bodyRead = .error e →
        (Check o q).output = "nomad: " ++ e
        ∧ (Check o q).result =
            if code < 400 then Result.success else Result.critical) := by
  refine ⟨?_, ?_, ?_⟩
  · intro e hq hd
    simp [Check, hq, checkTCP, hd, Failure]
  · intro e hq hr hdo
    simp [Check, hq, checkHTTP, hr, hdo, Failure]
  · intro e code hq hr hdo hb
    constructor
    · simp only [Check, hq, if_true, checkHTTP, hr, hdo, hb]
      by_cases hlt : code < 400 <;> simp [hlt]
    · simp only [Check, hq, if_true, checkHTTP, hr, hdo, hb]
      by_cases hlt : code < 400 <;> simp [hlt, Failure]

/-- Witness for C8 as amended, at concrete oracles: a refused tcp dial is
critical with the dial error text, and a body-read failure under status
200 keeps the prefixed text with a Success result. -/
theorem checker_folds_network_errors_witness :
    (Check oDialErr qTcp).result = Result.critical
    ∧ (Check oDialErr qTcp).output = "connection refused"
    ∧ (Check oBodyErr qHttp).output = "nomad: boom"
    ∧ (Check oBodyErr qHttp).result = Result.success := by
  have h1 := (checker_folds_network_errors oDialErr qTcp).1
    "connection refused" rfl rfl
  have h2 := (checker_folds_network_errors oBodyErr qHttp).2.2
    "boom" 200 rfl rfl rfl rfl
  exact ⟨h1.1, h1.2, h2.1, by simpa using h2.2⟩

/-- Claim C9 (evaluating the code at the failing input): GetQuery ignores
the configured method of the check, hardcoding GET, and hardcodes the
probe address; only the status classification half of the claim holds on
the code, shown here at statuses 399 and 400. -/
theorem get_query_hardcodes_method_and_address :
    (GetQuery check9).method = "GET"
    ∧ check9.method = "POST"
    ∧ ((GetQuery check9).method == check9.method) = false
    ∧ (GetQuery check9).address = "127.0.0.1:8080"
    ∧ (checkHTTP o399 (GetQuery check9)).result = Result.success
    ∧ (checkHTTP o400 (GetQuery check9)).result = Result.critical :=
  ⟨rfl, rfl, rfl, rfl, rfl, rfl⟩

/-! ## Consul check evaluation -/

/-- Claim C4: a registered check counts as passing exactly when its
status is passing, or warning under an ignore-warnings or ignore policy,
or critical under an ignore policy; a service passes exactly when all its
checks do; and a failing check fails the evaluation with the remaining
checks never examined. -/
theorem consul_check_pass_policy :
    (∀ onupdate status : String,
        checkPasses onupdate status = true ↔
          (status = HealthPassing
           ∨ (status = HealthWarning
              ∧ (onupdate = OnUpdateIgnoreWarn ∨ onupdate = OnUpdateIgnore))
           ∨ (status = HealthCritical ∧ onupdate = OnUpdateIgnore)))
    ∧ (∀ sreg : ServiceReg, sregPassed sreg = true ↔
        ∀ c ∈ sreg.checks,
          checkPasses (sreg.checkOnUpdate c.checkID) c.status = true)
    ∧ (∀ (f : String → String) (c : ConsulCheck) (rest : List ConsulCheck),
        checkPasses (f c.checkID) c.status = false →
        sregPassed { checks := c :: rest, checkOnUpdate := f } = false) := by
  refine ⟨?_, ?_, ?_⟩
  · intro ou st
    simp only [checkPasses]
    by_cases h1 : st = HealthPassing
    · simp [h1]
    · by_cases h2 : st = HealthWarning
      · simp [h1, h2, HealthWarning, HealthPassing, HealthCritical]
      · by_cases h3 : st = HealthCritical
        · simp [h1, h2, h3, HealthWarning, HealthPassing, HealthCritical]
        · simp [h1, h2, h3]
  · intro sreg
    simp [sregPassed, List.all_eq_true]
  · intro f c rest h
    simp [sregPassed, h]

/-- Witness for C4 at concrete checks: a critical check under the enforce
default fails its service no matter the remaining checks, and the
per-check policy evaluates as claimed on a warning status. -/
theorem consul_check_pass_policy_witness :
    sregPassed { checks := [criticalCheck, passingCheck]
                 checkOnUpdate := emptyPolicy } = false
    ∧ checkPasses OnUpdateIgnoreWarn HealthWarning = true := by
  constructor
  · exact (consul_check_pass_policy).2.2 emptyPolicy criticalCheck
      [passingCheck] rfl
  · exact ((consul_check_pass_policy).1 OnUpdateIgnoreWarn HealthWarning).mpr
      (Or.inr (Or.inl ⟨rfl, Or.inl rfl⟩))

/-! ## Tracker helper lemmas -/

theorem storeTaskStates_tasksHealthy (t : Tracker)
    (l : List (String × TaskState)) :
    ∀ s, (t.storeTaskStates s l).tasksHealthy = s.tasksHealthy := by
  induction l with
  | nil => intro s; rfl
  | cons p rest ih =>
    intro s
    cases p with
    | mk name st =>
      simp only [Tracker.storeTaskStates]
      by_cases h : t.tracked name = true <;> simp [h, ih]

theorem storeTaskStates_allocFailed (t : Tracker)
    (l : List (String × TaskState)) :
    ∀ s, (t.storeTaskStates s l).allocFailed = s.allocFailed := by
  induction l with
  | nil => intro s; rfl
  | cons p rest ih =>
    intro s
    cases p with
    | mk name st =>
      simp only [Tracker.storeTaskStates]
      by_cases h : t.tracked name = true <;> simp [h, ih]

theorem storeTaskStates_checksHealthy (t : Tracker)
    (l : List (String × TaskState)) :
    ∀ s, (t.storeTaskStates s l).checksHealthy = s.checksHealthy := by
  induction l with
  | nil => intro s; rfl
  | cons p rest ih =>
    intro s
    cases p with
    | mk name st =>
      simp only [Tracker.storeTaskStates]
      by_cases h : t.tracked name = true <;> simp [h, ih]

theorem storeTaskStates_slot (t : Tracker)
    (l : List (String × TaskState)) :
    ∀ s, (t.storeTaskStates s l).healthySlot = s.healthySlot := by
  induction l with
  | nil => intro s; rfl
  | cons p rest ih =>
    intro s
    cases p with
    | mk name st =>
      simp only [Tracker.storeTaskStates]
      by_cases h : t.tracked name = true <;> simp [h, ih]

theorem storeTaskStates_allocStopped (t : Tracker)
    (l : List (String × TaskState)) :
    ∀ s, (t.storeTaskStates s l).allocStopped = s.allocStopped := by
  induction l with
  | nil => intro s; rfl
  | cons p rest ih =>
    intro s
    cases p with
    | mk name st =>
      simp only [Tracker.storeTaskStates]
      by_cases h : t.tracked name = true <;> simp [h, ih]

theorem storeTaskStates_cancelled (t : Tracker)
    (l : List (String × TaskState)) :
    ∀ s, (t.storeTaskStates s l).cancelled = s.cancelled := by
  induction l with
  | nil => intro s; rfl
  | cons p rest ih =>
    intro s
    cases p with
    | mk name st =>
      simp only [Tracker.storeTaskStates]
      by_cases h : t.tracked name = true <;> simp [h, ih]

theorem storeTaskRegs_tasksHealthy (t : Tracker)
    (l : List (String × TaskReg)) :
    ∀ s, (t.storeTaskRegs s l).tasksHealthy = s.tasksHealthy := by
  induction l with
  | nil => intro s; rfl
  | cons p rest ih =>
    intro s
    cases p with
    | mk name reg =>
      simp only [Tracker.storeTaskRegs]
      by_cases h : t.tracked name = true <;> simp [h, ih]

theorem storeTaskRegs_checksHealthy (t : Tracker)
    (l : List (String × TaskReg)) :
    ∀ s, (t.storeTaskRegs s l).checksHealthy = s.checksHealthy := by
  induction l with
  | nil => intro s; rfl
  | cons p rest ih =>
    intro s
    cases p with
    | mk name reg =>
      simp only [Tracker.storeTaskRegs]
      by_cases h : t.tracked name = true <;> simp [h, ih]

theorem storeTaskRegs_slot (t : Tracker)
    (l : List (String × TaskReg)) :
    ∀ s, (t.storeTaskRegs s l).healthySlot = s.healthySlot := by
  induction l with
  | nil => intro s; rfl
  | cons p rest ih =>
    intro s
    cases p with
    | mk name reg =>
      simp only [Tracker.storeTaskRegs]
      by_cases h : t.tracked name = true <;> simp [h, ih]

theorem storeTaskRegs_cancelled (t : Tracker)
    (l : List (String × TaskReg)) :
    ∀ s, (t.storeTaskRegs s l).cancelled = s.cancelled := by
  induction l with
  | nil => intro s; rfl
  | cons p rest ih =>
    intro s
    cases p with
    | mk name reg =>
      simp only [Tracker.storeTaskRegs]
      by_cases h : t.tracked name = true <;> simp [h, ih]

/-- setTaskHealth with a non-terminal unhealthy signal only clears the two
flags. -/
theorem setTaskHealth_ff (t : Tracker) (s : TrackerState) :
    t.setTaskHealth s false false =
      { s with tasksHealthy := false, checksHealthy := false } := rfl

/-- setTaskHealth with a terminal unhealthy signal publishes and cancels. -/
theorem setTaskHealth_ft (t : Tracker) (s : TrackerState) :
    t.setTaskHealth s false true =
      cancelT (sendHealthy { s with tasksHealthy := false } false) := rfl

/-- setTaskHealth with a healthy signal either waits for required Consul
checks or publishes and cancels. -/
theorem setTaskHealth_tf (t : Tracker) (s : TrackerState) :
    t.setTaskHealth s true false =
      if t.requireConsul && !s.checksHealthy then
        { s with tasksHealthy := true }
      else cancelT (sendHealthy { s with tasksHealthy := true } true) := rfl

/-- setCheckHealth with an unhealthy signal only clears the checks flag. -/
theorem setCheckHealth_false (t : Tracker) (s : TrackerState) :
    t.setCheckHealth s false = ({ s with checksHealthy := false }, false) :=
  rfl

/-- setCheckHealth with a healthy signal publishes only when the tasks are
already healthy. -/
theorem setCheckHealth_true (t : Tracker) (s : TrackerState) :
    t.setCheckHealth s true =
      if s.tasksHealthy then
        (cancelT (sendHealthy { s with checksHealthy := true } true), true)
      else ({ s with checksHealthy := false }, false) := by
  cases h : s.tasksHealthy <;>
    simp [Tracker.setCheckHealth, h]

/-- A state with an empty verdict slot satisfies the delivery invariant. -/
theorem trackerInv_of_none (t : Tracker) (s : TrackerState)
    (h : s.healthySlot = none) : TrackerInv t s := by
  constructor
  · intro hn; exact absurd h hn
  · intro he; simp [he] at h

/-- Publishing a terminal unhealthy verdict keeps the invariant. -/
theorem inv_setTaskHealth_ft (t : Tracker) (s : TrackerState)
    (h : s.healthySlot = none) :
    TrackerInv t (t.setTaskHealth s false true) := by
  rw [setTaskHealth_ft]
  refine ⟨fun _ => rfl, fun he => ?_⟩
  simp [sendHealthy, cancelT, h] at he

/-- The non-terminal healthy task signal keeps the invariant. -/
theorem inv_setTaskHealth_tf (t : Tracker) (s : TrackerState)
    (h : s.healthySlot = none) :
    TrackerInv t (t.setTaskHealth s true false) := by
  rw [setTaskHealth_tf]
  by_cases hq : (t.requireConsul && !s.checksHealthy) = true
  · rw [if_pos hq]
    exact trackerInv_of_none t _ h
  · rw [if_neg hq]
    refine ⟨fun _ => rfl, fun _ => ?_⟩
    constructor
    · simp [sendHealthy, cancelT, h]
    · intro hrc
      have hcb : s.checksHealthy = true := by
        cases hcb2 : s.checksHealthy
        · exact absurd (by simp [hrc, hcb2]) hq
        · rfl
      simp [sendHealthy, cancelT, h, hcb]

/-- The healthy check signal keeps the invariant. -/
theorem inv_setCheckHealth_true (t : Tracker) (s : TrackerState)
    (h : s.healthySlot = none) :
    TrackerInv t (t.setCheckHealth s true).1 := by
  rw [setCheckHealth_true]
  by_cases ht : s.tasksHealthy = true
  · rw [if_pos ht]
    refine ⟨fun _ => rfl, fun _ => ?_⟩
    constructor
    · simp [sendHealthy, cancelT, h, ht]
    · intro _
      simp [sendHealthy, cancelT, h]
  · rw [if_neg ht]
    exact trackerInv_of_none t _ h

/-- The unhealthy check signal keeps the invariant. -/
theorem inv_setCheckHealth_false (t : Tracker) (s : TrackerState)
    (h : s.healthySlot = none) :
    TrackerInv t (t.setCheckHealth s false).1 := by
  rw [setCheckHealth_false]
  exact trackerInv_of_none t _ h

/-- Marking the allocation stopped keeps the invariant. -/
theorem inv_markAllocStopped (t : Tracker) (s : TrackerState)
    (h : s.healthySlot = none) :
    TrackerInv t (t.markAllocStopped s) :=
  trackerInv_of_none t _ h

/-- One iteration of the task-events watcher keeps the invariant. -/
theorem watchTaskEventsStep_inv (t : Tracker) (alloc : Alloc)
    (s : TrackerState) (w : TaskWatcherState) (h : s.healthySlot = none) :
    TrackerInv t (t.watchTaskEventsStep alloc s w).1 := by
  obtain ⟨ds, cs, tsl⟩ := alloc
  cases ds with
  | stop => exact inv_markAllocStopped t s h
  | evict => exact inv_markAllocStopped t s h
  | run =>
    simp only [Tracker.watchTaskEventsStep]
    have hslot : (t.storeTaskStates s tsl).healthySlot = none := by
      rw [storeTaskStates_slot]; exact h
    cases hscan : scanTaskStates t.lifecycleTasks tsl 0 with
    | failedTask =>
      exact inv_setTaskHealth_ft t _ hslot
    | latestStart latest =>
      dsimp only
      by_cases hcs : cs = ClientStatus.failed
      · rw [if_pos hcs]
        exact inv_setTaskHealth_ft t _ hslot
      · rw [if_neg hcs]
        by_cases hlat : latest = (w.allStartedTime)
        · rw [if_pos hlat]
          exact trackerInv_of_none t _ hslot
        · rw [if_neg hlat]
          by_cases hz : latest = 0
          · rw [if_pos hz]
            exact trackerInv_of_none t _ hslot
          · rw [if_neg hz]
            exact trackerInv_of_none t _ hslot

/-- The timer branch of the task-events watcher keeps the invariant. -/
theorem taskTimerFire_inv (t : Tracker) (s : TrackerState)
    (w : TaskWatcherState) (h : s.healthySlot = none) :
    TrackerInv t (t.taskTimerFire s w).1 :=
  inv_setTaskHealth_tf t s h

/-- The evaluation phase of the Consul watcher keeps the invariant. -/
theorem consulEvaluate_inv (t : Tracker) (s : TrackerState)
    (w : ConsulWatcherState) (h : s.healthySlot = none) :
    TrackerInv t (t.consulEvaluate s w).1 := by
  obtain ⟨primed, cerr, ar⟩ := w
  cases ar with
  | none => exact trackerInv_of_none t _ h
  | some reg =>
    simp only [Tracker.consulEvaluate]
    have hslot : (t.storeTaskRegs s reg.tasks).healthySlot = none := by
      rw [storeTaskRegs_slot]; exact h
    by_cases hp : allocRegPassed reg = true
    · simp only [hp, if_true, Bool.not_true]
      split
      · exact trackerInv_of_none t _ hslot
      · split
        · exact trackerInv_of_none t _ hslot
        · exact trackerInv_of_none t _ hslot
    · have hp2 : allocRegPassed reg = false := by
        cases hpb : allocRegPassed reg
        · rfl
        · exact absurd hpb hp
      simp only [hp2, if_false, Bool.not_false]
      split
      · rw [setCheckHealth_false]
        exact trackerInv_of_none t _ hslot
      · split
        · rw [setCheckHealth_false]
          exact trackerInv_of_none t _ hslot
        · rw [setCheckHealth_false]
          exact trackerInv_of_none t _ hslot

/-- One iteration of the Consul watcher keeps the invariant. -/
theorem watchConsulEventsStep_inv (t : Tracker) (s : TrackerState)
    (w : ConsulWatcherState) (ev : ConsulEvent) (h : s.healthySlot = none) :
    TrackerInv t (t.watchConsulEventsStep s w ev).1 := by
  cases ev with
  | tick fetched =>
    cases fetched with
    | none => exact trackerInv_of_none t _ h
    | some reg => exact consulEvaluate_inv t s _ h
  | waiterFire =>
    simp only [Tracker.watchConsulEventsStep]
    by_cases ht : s.tasksHealthy = true
    · have hr : t.setCheckHealth s true =
          (cancelT (sendHealthy { s with checksHealthy := true } true), true) := by
        rw [setCheckHealth_true, if_pos ht]
      rw [hr]
      simp only [if_true]
      refine ⟨fun _ => rfl, fun _ => ?_⟩
      constructor
      · simp [sendHealthy, cancelT, h, ht]
      · intro _
        simp [sendHealthy, cancelT, h]
    · have hr : t.setCheckHealth s true =
          ({ s with checksHealthy := false }, false) := by
        rw [setCheckHealth_true, if_neg ht]
      rw [hr]
      simp only [Bool.false_eq_true, if_false]
      exact consulEvaluate_inv t _ _ h

/-- Every system step keeps the delivery invariant. -/
theorem step_preserves_inv (t : Tracker) {s1 s2 : SysState}
    (hs : Step t s1 s2) (hinv : TrackerInv t s1.ts) : TrackerInv t s2.ts := by
  have hnone : s1.ts.cancelled = false → s1.ts.healthySlot = none := by
    intro hc
    by_contra hn
    rw [hinv.1 hn] at hc
    cases hc
  cases hs with
  | allocUpdate alloc hc =>
    exact watchTaskEventsStep_inv t alloc s1.ts s1.tw (hnone hc)
  | healthyTimerFire hc ha =>
    exact taskTimerFire_inv t s1.ts s1.tw (hnone hc)
  | consulIter ev hc hu hw =>
    exact watchConsulEventsStep_inv t s1.ts s1.cw ev (hnone hc)

/-- Reachability keeps the delivery invariant. -/
theorem reach_preserves_inv (t : Tracker) {s0 s1 : SysState}
    (h0 : TrackerInv t s0.ts) (hr : Reach t s0 s1) : TrackerInv t s1.ts := by
  induction hr with
  | refl => exact h0
  | tail _ hstep ih => exact step_preserves_inv t hstep ih

/-- A step only fires while the tracker context is live. -/
theorem step_not_cancelled (t : Tracker) {s s2 : SysState}
    (hstep : Step t s s2) : s.ts.cancelled = false := by
  cases hstep with
  | allocUpdate alloc hc => exact hc
  | healthyTimerFire hc ha => exact hc
  | consulIter ev hc hu hw => exact hc

/-- Nothing is reachable from a cancelled tracker but itself. -/
theorem reach_of_cancelled (t : Tracker) {s s2 : SysState}
    (h : s.ts.cancelled = true) (hr : Reach t s s2) : s2 = s := by
  induction hr with
  | refl => rfl
  | tail hr2 hstep ih =>
    rw [ih] at hstep
    rw [step_not_cancelled t hstep] at h
    cases h

/-! ## The Tracker claims -/

/-- Claim C10: after setCheckHealth returns, the checks-healthy flag
implies the tasks-healthy flag, and a checks-only healthy observation
while tasks are unhealthy records checksHealthy false, publishes nothing,
cancels nothing and reports no propagation. -/
theorem setCheckHealth_checks_implies_tasks (t : Tracker) (s : TrackerState)
    (healthy : Bool) :
    ((t.setCheckHealth s healthy).1.checksHealthy = true →
      (t.setCheckHealth s healthy).1.tasksHealthy = true)
    ∧ (s.tasksHealthy = false →
        (t.setCheckHealth s healthy).1.checksHealthy = false
        ∧ (t.setCheckHealth s healthy).1.healthySlot = s.healthySlot
        ∧ (t.setCheckHealth s healthy).1.cancelled = s.cancelled
        ∧ (t.setCheckHealth s healthy).2 = false) := by
  cases healthy with
  | false =>
    rw [setCheckHealth_false]
    exact ⟨fun hc => Bool.noConfusion hc, fun _ => ⟨rfl, rfl, rfl, rfl⟩⟩
  | true =>
    rw [setCheckHealth_true]
    by_cases ht : s.tasksHealthy = true
    · rw [if_pos ht]
      constructor
      · intro _
        cases hsl : s.healthySlot <;> simp [sendHealthy, cancelT, hsl, ht]
      · intro hf
        rw [ht] at hf
        cases hf
    · rw [if_neg ht]
      exact ⟨fun hc => Bool.noConfusion hc, fun _ => ⟨rfl, rfl, rfl, rfl⟩⟩

/-- Witness for C10 at the initial state: a healthy check signal while
tasks are unhealthy records checksHealthy false without propagating. -/
theorem setCheckHealth_checks_implies_tasks_witness :
    (trackerC.setCheckHealth initialState true).1.checksHealthy = false
    ∧ (trackerC.setCheckHealth initialState true).2 = false := by
  have h := (setCheckHealth_checks_implies_tasks trackerC initialState true).2
    rfl
  exact ⟨h.1, h.2.2.2⟩

/-- Counterexample to claim C1 as stated: an unhealthy signal from the
check watcher (a critical check under the enforce policy, delivered by a
poll tick) does not finalize the verdict: the tracker is not cancelled, no
verdict is published, and the watcher keeps looping; the failing check is
only recorded in the checksHealthy flag. -/
theorem check_failure_does_not_finalize :
    (trackerC.watchConsulEventsStep initialState initialConsulWatcher
        (ConsulEvent.tick (some regC))).1.cancelled = false
    ∧ (trackerC.watchConsulEventsStep initialState initialConsulWatcher
        (ConsulEvent.tick (some regC))).1.healthySlot = none
    ∧ (trackerC.watchConsulEventsStep initialState initialConsulWatcher
        (ConsulEvent.tick (some regC))).1.checksHealthy = false
    ∧ (trackerC.watchConsulEventsStep initialState initialConsulWatcher
        (ConsulEvent.tick (some regC))).2.2 = IterOutcome.looping :=
  ⟨rfl, rfl, rfl, rfl⟩

/-- Claim C1 (amended): in every reachable state a published Healthy
verdict certifies tasksHealthy and, when Consul checks are required,
checksHealthy; a terminal unhealthy signal from the task-events watcher
publishes and cancels immediately; an unhealthy signal from the check
watcher only records checksHealthy false and never finalizes; and a
healthy signal from one required source alone (tasks without required
checks, or checks without tasks) never finalizes. -/
theorem tracker_verdict_fusion (t : Tracker) :
    (∀ s0 s1 : SysState, TrackerInv t s0.ts → Reach t s0 s1 →
        s1.ts.healthySlot = some true →
        s1.ts.tasksHealthy = true
        ∧ (t.requireConsul = true → s1.ts.checksHealthy = true))
    ∧ (∀ s : TrackerState, s.healthySlot = none →
        (t.setTaskHealth s false true).healthySlot = some false
        ∧ (t.setTaskHealth s false true).cancelled = true)
    ∧ (∀ s : TrackerState,
        (t.setCheckHealth s false).1.cancelled = s.cancelled
        ∧ (t.setCheckHealth s false).1.healthySlot = s.healthySlot
        ∧ (t.setCheckHealth s false).1.checksHealthy = false
        ∧ (t.setCheckHealth s false).2 = false)
    ∧ (∀ s : TrackerState, t.requireConsul = true → s.checksHealthy = false →
        (t.setTaskHealth s true false).healthySlot = s.healthySlot
        ∧ (t.setTaskHealth s true false).cancelled = s.cancelled)
    ∧ (∀ s : TrackerState, s.tasksHealthy = false →
        (t.setCheckHealth s true).1.healthySlot = s.healthySlot
        ∧ (t.setCheckHealth s true).1.cancelled = s.cancelled) := by
  refine ⟨?_, ?_, ?_, ?_, ?_⟩
  · intro s0 s1 h0 hr hslot
    exact (reach_preserves_inv t h0 hr).2 hslot
  · intro s h
    rw [setTaskHealth_ft]
    constructor
    · simp [sendHealthy, cancelT, h]
    · rfl
  · intro s
    rw [setCheckHealth_false]
    exact ⟨rfl, rfl, rfl, rfl⟩
  · intro s hrc hcf
    rw [setTaskHealth_tf]
    rw [if_pos (by simp [hrc, hcf])]
    exact ⟨rfl, rfl⟩
  · intro s ht
    rw [setCheckHealth_true, if_neg (by simp [ht])]
    exact ⟨rfl, rfl⟩

/-- Witness for C1 as amended, with Consul checks required: a check-only
unhealthy signal leaves the tracker live, and a tasks-only healthy signal
publishes nothing. -/
theorem tracker_verdict_fusion_witness :
    (trackerC.setCheckHealth initialState false).1.cancelled = false
    ∧ (trackerC.setTaskHealth initialState true false).healthySlot = none
    ∧ initialSys.ts.tasksHealthy = false := by
  have h := tracker_verdict_fusion trackerC
  refine ⟨?_, ?_, rfl⟩
  · exact (h.2.2.1 initialState).1
  · exact (h.2.2.2.1 initialState rfl rfl).1

/-- Claim C2: the verdict is delivered at most once. A send on a full
slot is a no-op; in every reachable state a published verdict comes with
every watcher cancelled; and processing the same allocation snapshot
twice in a row delivers nothing new and leaves the three health flags and
the verdict slot unchanged. -/
theorem verdict_single_delivery (t : Tracker) :
    (∀ (s : TrackerState) (v b : Bool), s.healthySlot = some b →
        sendHealthy s v = s)
    ∧ (∀ s0 s1 : SysState, TrackerInv t s0.ts → Reach t s0 s1 →
        s1.ts.healthySlot ≠ none → s1.ts.cancelled = true)
    ∧ (∀ (alloc : Alloc) (s s1 : TrackerState) (w w1 : TaskWatcherState),
        t.watchTaskEventsStep alloc s w = (s1, w1, IterOutcome.looping) →
        s1.healthySlot = s.healthySlot
        ∧ (t.watchTaskEventsStep alloc s1 w1).2.2 = IterOutcome.looping
        ∧ (t.watchTaskEventsStep alloc s1 w1).1.tasksHealthy = s1.tasksHealthy
        ∧ (t.watchTaskEventsStep alloc s1 w1).1.checksHealthy = s1.checksHealthy
        ∧ (t.watchTaskEventsStep alloc s1 w1).1.allocFailed = s1.allocFailed
        ∧ (t.watchTaskEventsStep alloc s1 w1).1.healthySlot = s1.healthySlot) := by
  refine ⟨?_, ?_, ?_⟩
  · intro s v b h
    simp [sendHealthy, h]
  · intro s0 s1 h0 hr hn
    exact (reach_preserves_inv t h0 hr).1 hn
  · intro alloc s s1 w w1 heq
    obtain ⟨ds, cs, tsl⟩ := alloc
    cases ds with
    | stop => simp [Tracker.watchTaskEventsStep] at heq
    | evict => simp [Tracker.watchTaskEventsStep] at heq
    | run =>
      simp only [Tracker.watchTaskEventsStep] at heq
      cases hscan : scanTaskStates t.lifecycleTasks tsl 0 with
      | failedTask =>
        rw [hscan] at heq
        simp at heq
      | latestStart latest =>
        rw [hscan] at heq
        dsimp only at heq
        by_cases hcs : cs = ClientStatus.failed
        · rw [if_pos hcs] at heq
          simp at heq
        · rw [if_neg hcs] at heq
          by_cases hlat : latest = w.allStartedTime
          · rw [if_pos hlat] at heq
            rw [Prod.ext_iff, Prod.ext_iff] at heq
            obtain ⟨h1, h2, _⟩ := heq
            subst h1
            subst h2
            simp only [Tracker.watchTaskEventsStep]
            rw [hscan]
            dsimp only
            rw [if_neg hcs, if_pos hlat]
            simp [storeTaskStates_slot, storeTaskStates_tasksHealthy,
              storeTaskStates_checksHealthy, storeTaskStates_allocFailed]
          · rw [if_neg hlat] at heq
            by_cases hz : latest = 0
            · rw [if_pos hz] at heq
              rw [Prod.ext_iff, Prod.ext_iff] at heq
              obtain ⟨h1, h2, _⟩ := heq
              subst h1
              subst h2
              simp only [Tracker.watchTaskEventsStep]
              rw [hscan]
              dsimp only
              rw [if_neg hcs, if_neg hlat, if_pos hz]
              simp [setTaskHealth_ff, storeTaskStates_slot,
                storeTaskStates_tasksHealthy, storeTaskStates_checksHealthy,
                storeTaskStates_allocFailed]
            · rw [if_neg hz] at heq
              rw [Prod.ext_iff, Prod.ext_iff] at heq
              obtain ⟨h1, h2, _⟩ := heq
              subst h1
              subst h2
              simp only [Tracker.watchTaskEventsStep]
              rw [hscan]
              dsimp only
              rw [if_neg hcs, if_pos (rfl : latest = latest)]
              simp [setTaskHealth_ff, storeTaskStates_slot,
                storeTaskStates_tasksHealthy, storeTaskStates_checksHealthy,
                storeTaskStates_allocFailed]

/-- Witness for C2: at a concrete snapshot with one running task the
watcher loops, and re-processing the same snapshot changes neither the
verdict slot nor the flags. -/
theorem verdict_single_delivery_witness :
    (trackerC.watchTaskEventsStep allocRun initialState initialTaskWatcher).2.2
      = IterOutcome.looping
    ∧ (trackerC.watchTaskEventsStep allocRun
        (trackerC.watchTaskEventsStep allocRun initialState
          initialTaskWatcher).1
        (trackerC.watchTaskEventsStep allocRun initialState
          initialTaskWatcher).2.1).1.healthySlot
      = (trackerC.watchTaskEventsStep allocRun initialState
          initialTaskWatcher).1.healthySlot
    ∧ (trackerC.watchTaskEventsStep allocRun
        (trackerC.watchTaskEventsStep allocRun initialState
          initialTaskWatcher).1
        (trackerC.watchTaskEventsStep allocRun initialState
          initialTaskWatcher).2.1).2.2 = IterOutcome.looping := by
  have h := (verdict_single_delivery trackerC).2.2 allocRun initialState
    (trackerC.watchTaskEventsStep allocRun initialState initialTaskWatcher).1
    initialTaskWatcher
    (trackerC.watchTaskEventsStep allocRun initialState
      initialTaskWatcher).2.1 rfl
  exact ⟨rfl, h.2.2.2.2.2, h.2.1⟩

/-- Claim C3: a stop or evict desired status observed while the tracker
is still pending fires the allocation-stopped signal, cancels the
tracker, and no Healthy or Unhealthy verdict is ever delivered in any
state reachable afterwards. -/
theorem alloc_stop_fires_stopped (t : Tracker) (alloc : Alloc)
    (s0 : SysState) (hpend : s0.ts.healthySlot = none)
    (_hlive : s0.ts.cancelled = false)
    (hd : alloc.desiredStatus = DesiredStatus.stop
      ∨ alloc.desiredStatus = DesiredStatus.evict) :
    (t.watchTaskEventsStep alloc s0.ts s0.tw).2.2 = IterOutcome.stopped
    ∧ (t.watchTaskEventsStep alloc s0.ts s0.tw).1.allocStopped = true
    ∧ (t.watchTaskEventsStep alloc s0.ts s0.tw).1.cancelled = true
    ∧ (t.watchTaskEventsStep alloc s0.ts s0.tw).1.healthySlot = none
    ∧ ∀ s2 : SysState,
        Reach t { ts := (t.watchTaskEventsStep alloc s0.ts s0.tw).1
                  tw := (t.watchTaskEventsStep alloc s0.ts s0.tw).2.1
                  cw := s0.cw } s2 →
        s2.ts.healthySlot = none := by
  obtain ⟨ds, cs, tsl⟩ := alloc
  have hred : t.watchTaskEventsStep ⟨ds, cs, tsl⟩ s0.ts s0.tw
      = (t.markAllocStopped s0.ts, s0.tw, IterOutcome.stopped) := by
    rcases hd with h | h <;> (cases h; rfl)
  rw [hred]
  refine ⟨rfl, rfl, rfl, hpend, ?_⟩
  intro s2 hr
  have hc : ({ ts := t.markAllocStopped s0.ts, tw := s0.tw, cw := s0.cw }
      : SysState).ts.cancelled = true := rfl
  rw [reach_of_cancelled t hc hr]
  exact hpend

/-- Witness for C3 at a concrete pending tracker: the stopped signal
fires and the verdict slot stays empty. -/
theorem alloc_stop_fires_stopped_witness :
    (trackerC.watchTaskEventsStep allocStop initialState
      initialTaskWatcher).2.2 = IterOutcome.stopped
    ∧ (trackerC.watchTaskEventsStep allocStop initialState
        initialTaskWatcher).1.allocStopped = true
    ∧ (trackerC.watchTaskEventsStep allocStop initialState
        initialTaskWatcher).1.healthySlot = none := by
  have h := alloc_stop_fires_stopped trackerC allocStop initialSys rfl rfl
    (Or.inl rfl)
  exact ⟨h.1, h.2.1, h.2.2.2.1⟩

end NomadHealth
